import Mathlib

/-!
Shallow embedding of the task-manager backend (Express + PostgreSQL).

The relational rows (schema.sql) become Lean structures; the route handlers
(routes/tasks.js, routes/users.js, the categories router, middleware/auth.js,
middleware/errorHandler.js, utils/validation.js) become pure functions over a
list-of-rows store.  Timestamps are `Nat` (the handler's "current time" is an
explicit argument), ids are `Nat`, and SQL `NULL` is `Option.none`.
Responses are `Except ApiError α`: `.error ⟨status, message⟩` carries the
non-2xx status and message the handler sends, `.ok` the returned data.
-/

namespace TaskManager

/-- Row of the `tasks` table (schema.sql lines 30-42). -/
structure Task where
  id : Nat
  user_id : Nat
  title : String
  description : Option String
  status : String
  priority : String
  due_date : Option Nat
  category_id : Option Nat
  created_at : Nat
  updated_at : Nat
  completed_at : Option Nat
deriving Repr, DecidableEq

/-- Row of the `categories` table (schema.sql lines 21-27); `user_id = none`
is a default/global category. The table has no `updated_at` column. -/
structure Category where
  id : Nat
  name : String
  color : String
  user_id : Option Nat
  created_at : Nat
deriving Repr, DecidableEq

/-- Row of the `users` table (schema.sql lines 10-18). -/
structure User where
  id : Nat
  name : String
  email : String
  password : String
  avatar_url : Option String
  created_at : Nat
  updated_at : Nat
deriving Repr, DecidableEq

/-- A non-2xx HTTP outcome: status code and the `message` field of the
response body. -/
structure ApiError where
  status : Nat
  message : String
deriving Repr, DecidableEq

/-- The row filter `id = $1 AND user_id = $2` used by GET/PUT/DELETE
/tasks/:id (tasks.js lines 162, 224, 298). -/
def taskMatches (taskId userId : Nat) (t : Task) : Bool :=
  t.id == taskId && t.user_id == userId

/-- GET /tasks/:id (tasks.js lines 150-180): select the row with
`t.id = $1 AND t.user_id = $2`; empty result is 404 "Task not found".
The LEFT JOIN onto categories only decorates the returned row with the
category's name/color; the task row itself is what is returned. -/
def getTask (db : List Task) (taskId userId : Nat) : Except ApiError Task :=
  match db.find? (taskMatches taskId userId) with
  | none => .error ⟨404, "Task not found"⟩
  | some t => .ok t

/-- Validated PUT /tasks/:id body (taskSchemas.update, validation.js lines
34-41).  Outer `none` means the field is absent from the body (Joi strips
unknown keys; `undefined` never survives validation); for `due_date` and
`category_id` an inner `none` is an explicit JSON `null`, which the schema
allows. -/
structure TaskUpdate where
  title : Option String := none
  description : Option String := none
  status : Option String := none
  priority : Option String := none
  due_date : Option (Option Nat) := none
  category_id : Option (Option Nat) := none
deriving Repr, DecidableEq

/-- Column names pushed by the `Object.keys(updates)` loop of PUT /tasks/:id
(tasks.js lines 240-246), in the validated object's key order. -/
def presentTaskFields (u : TaskUpdate) : List String :=
  (if u.title.isSome then ["title"] else []) ++
  (if u.description.isSome then ["description"] else []) ++
  (if u.status.isSome then ["status"] else []) ++
  (if u.priority.isSome then ["priority"] else []) ++
  (if u.due_date.isSome then ["due_date"] else []) ++
  (if u.category_id.isSome then ["category_id"] else [])

/-- The conditional `completed_at` push of PUT /tasks/:id (tasks.js lines
248-257): pushed when the new status is `completed` and the stored status is
not, and also when a (necessarily truthy) new status is anything other than
`completed`. -/
def completedAtField (u : TaskUpdate) (storedStatus : String) : List String :=
  if u.status == some "completed" && storedStatus != "completed" then ["completed_at"]
  else if u.status.isSome && u.status != some "completed" then ["completed_at"]
  else []

/-- The full `updateFields` list of PUT /tasks/:id at the moment of the
`updateFields.length === 0` check (tasks.js line 259): loop pushes followed
by the conditional `completed_at` push. -/
def taskUpdateFields (u : TaskUpdate) (storedStatus : String) : List String :=
  presentTaskFields u ++ completedAtField u storedStatus

/-- Columns assigned by the UPDATE statement of PUT /tasks/:id (tasks.js
lines 270-273): the dynamic fields plus the hard-coded
`updated_at = CURRENT_TIMESTAMP`. -/
def taskSetColumns (u : TaskUpdate) (storedStatus : String) : List String :=
  taskUpdateFields u storedStatus ++ ["updated_at"]

/-- Value assigned to `completed_at` by PUT /tasks/:id (tasks.js lines
248-257): `new Date()` on a transition into `completed`, SQL NULL when the
new status is any other value, untouched otherwise. -/
def newCompletedAt (u : TaskUpdate) (old : Task) (now : Nat) : Option Nat :=
  if u.status == some "completed" && old.status != "completed" then some now
  else if u.status.isSome && u.status != some "completed" then none
  else old.completed_at

/-- Effect of the UPDATE statement of PUT /tasks/:id on the matched row:
each present field is assigned, `completed_at` per `newCompletedAt`, and
`updated_at = CURRENT_TIMESTAMP`. -/
def applyTaskUpdate (old : Task) (u : TaskUpdate) (now : Nat) : Task :=
  { old with
    title := u.title.getD old.title
    description := (u.description.map some).getD old.description
    status := u.status.getD old.status
    priority := u.priority.getD old.priority
    due_date := u.due_date.getD old.due_date
    category_id := u.category_id.getD old.category_id
    completed_at := newCompletedAt u old now
    updated_at := now }

/-- PUT /tasks/:id (tasks.js lines 216-285): ownership pre-check
(`SELECT id, status FROM tasks WHERE id = $1 AND user_id = $2`, 404 on empty),
then the dynamic field build, the empty-fields 400, and the scoped UPDATE.
Returns the handler's response and the store after the call. -/
def updateTask (db : List Task) (taskId userId : Nat) (u : TaskUpdate) (now : Nat) :
    Except ApiError Task × List Task :=
  match db.find? (taskMatches taskId userId) with
  | none => (.error ⟨404, "Task not found"⟩, db)
  | some old =>
    if taskUpdateFields u old.status = [] then
      (.error ⟨400, "No valid fields to update"⟩, db)
    else
      let updated := applyTaskUpdate old u now
      (.ok updated, db.map fun t => if taskMatches taskId userId t then updated else t)

/-- DELETE /tasks/:id (tasks.js lines 292-316): `DELETE FROM tasks WHERE
id = $1 AND user_id = $2 RETURNING id`; zero returned rows is 404
"Task not found". -/
def deleteTask (db : List Task) (taskId userId : Nat) : Except ApiError Unit × List Task :=
  if db.any (taskMatches taskId userId) then
    (.ok (), db.filter fun t => !(taskMatches taskId userId t))
  else
    (.error ⟨404, "Task not found"⟩, db)

/-- Validated PUT /categories/:id body (categorySchemas.update,
validation.js lines 51-54). -/
structure CategoryUpdate where
  name : Option String := none
  color : Option String := none
deriving Repr, DecidableEq

/-- Column names pushed by the `Object.keys(updates)` loop of
PUT /categories/:id (categories router lines 184-190). -/
def presentCategoryFields (u : CategoryUpdate) : List String :=
  (if u.name.isSome then ["name"] else []) ++
  (if u.color.isSome then ["color"] else [])

/-- Columns assigned by the UPDATE statement of PUT /categories/:id
(categories router lines 202-208): only the dynamic fields — unlike the
task and profile updates, no `updated_at` assignment is appended (the
`categories` table has no such column). -/
def categorySetColumns (u : CategoryUpdate) : List String :=
  presentCategoryFields u

/-- Effect of the UPDATE statement of PUT /categories/:id on the matched
row. -/
def applyCategoryUpdate (old : Category) (u : CategoryUpdate) : Category :=
  { old with
    name := u.name.getD old.name
    color := u.color.getD old.color }

/-- PUT /categories/:id (categories router lines 137-218): existence check
by id alone (404), ownership check (403 "Cannot update default categories"
when `user_id !== userId`, which also fires for another user's category),
duplicate-name check (409), empty-fields 400, then the UPDATE scoped by
`id = $.. AND user_id = $..`. -/
def updateCategory (cats : List Category) (categoryId userId : Nat)
    (u : CategoryUpdate) : Except ApiError Category × List Category :=
  match cats.find? (fun c => c.id == categoryId) with
  | none => (.error ⟨404, "Category not found"⟩, cats)
  | some old =>
    if old.user_id != some userId then
      (.error ⟨403, "Cannot update default categories"⟩, cats)
    else if (match u.name with
             | some n => cats.any fun c => c.name == n && c.user_id == some userId && c.id != categoryId
             | none => false) then
      (.error ⟨409, "Category with this name already exists"⟩, cats)
    else if presentCategoryFields u = [] then
      (.error ⟨400, "No valid fields to update"⟩, cats)
    else
      let updated := applyCategoryUpdate old u
      (.ok updated,
       cats.map fun c => if c.id == categoryId && c.user_id == some userId then updated else c)

/-- The blocking count of DELETE /categories/:id (categories router lines
252-257): `SELECT COUNT(*) FROM tasks WHERE category_id = $1 AND
user_id = $2`. -/
def categoryTaskCount (tasks : List Task) (categoryId userId : Nat) : Nat :=
  (tasks.filter fun t => t.category_id == some categoryId && t.user_id == userId).length

/-- DELETE /categories/:id (categories router lines 225-279): existence
check by id alone (404), ownership check (403), then the dependent-task
count — a positive count blocks with a 400 whose message reports the exact
count — and finally the DELETE scoped by id and user id. -/
def deleteCategory (cats : List Category) (tasks : List Task)
    (categoryId userId : Nat) : Except ApiError Unit × List Category :=
  match cats.find? (fun c => c.id == categoryId) with
  | none => (.error ⟨404, "Category not found"⟩, cats)
  | some old =>
    if old.user_id != some userId then
      (.error ⟨403, "Cannot delete default categories"⟩, cats)
    else
      let taskCount := categoryTaskCount tasks categoryId userId
      if taskCount > 0 then
        (.error ⟨400, "Cannot delete category. It has " ++ toString taskCount ++
          " task(s). Please reassign or delete the tasks first."⟩, cats)
      else
        (.ok (), cats.filter fun c => !(c.id == categoryId && c.user_id == some userId))

/-- Validated PUT /users/profile body (userSchemas.updateProfile,
validation.js lines 16-20). -/
structure ProfileUpdate where
  name : Option String := none
  email : Option String := none
  avatar_url : Option String := none
deriving Repr, DecidableEq

/-- Column names pushed by the `Object.keys(updates)` loop of
PUT /users/profile (users.js lines 72-78). -/
def presentProfileFields (u : ProfileUpdate) : List String :=
  (if u.name.isSome then ["name"] else []) ++
  (if u.email.isSome then ["email"] else []) ++
  (if u.avatar_url.isSome then ["avatar_url"] else [])

/-- Columns assigned by the UPDATE statement of PUT /users/profile
(users.js lines 91-94): dynamic fields plus the hard-coded
`updated_at = CURRENT_TIMESTAMP`. -/
def profileSetColumns (u : ProfileUpdate) : List String :=
  presentProfileFields u ++ ["updated_at"]

/-- Effect of the UPDATE statement of PUT /users/profile on the caller's
row, including `updated_at = CURRENT_TIMESTAMP`. -/
def applyProfileUpdate (old : User) (u : ProfileUpdate) (now : Nat) : User :=
  { old with
    name := u.name.getD old.name
    email := u.email.getD old.email
    avatar_url := (u.avatar_url.map some).getD old.avatar_url
    updated_at := now }

/-- PUT /users/profile (users.js lines 47-106): email-taken check (409),
empty-fields 400, then the UPDATE scoped by the caller's id; the response
data is the RETURNING row (absent when no row matched the caller's id). -/
def updateProfile (users : List User) (userId : Nat) (u : ProfileUpdate)
    (now : Nat) : Except ApiError (Option User) × List User :=
  if (match u.email with
      | some e => users.any fun x => x.email == e && x.id != userId
      | none => false) then
    (.error ⟨409, "Email is already taken"⟩, users)
  else if presentProfileFields u = [] then
    (.error ⟨400, "No valid fields to update"⟩, users)
  else
    let updatedUsers := users.map fun x =>
      if x.id == userId then applyProfileUpdate x u now else x
    (.ok (updatedUsers.find? fun x => x.id == userId), updatedUsers)

/-- Allowed `status` values (validation.js lines 28, 37, 115). -/
def statusValues : List String := ["pending", "in_progress", "completed"]

/-- Allowed `priority` values (validation.js lines 29, 38, 116). -/
def priorityValues : List String := ["low", "medium", "high"]

/-- Raw POST /tasks body after Joi has stripped unknown keys
(taskSchemas.create, validation.js lines 25-32); `none` is an absent key,
and for `due_date`/`category_id` an inner `none` is an explicit null. -/
structure TaskCreateInput where
  title : Option String := none
  description : Option String := none
  status : Option String := none
  priority : Option String := none
  due_date : Option (Option Nat) := none
  category_id : Option (Option Nat) := none
deriving Repr, DecidableEq

/-- Normalized POST /tasks body: required/defaulted fields are filled. -/
structure TaskCreate where
  title : String
  description : Option String
  status : String
  priority : String
  due_date : Option Nat
  category_id : Option Nat
deriving Repr, DecidableEq

/-- Fields violating taskSchemas.create, collected in one pass
(abortEarly: false).  ISO-date parsing of `due_date` is abstracted (dates
are already numbers here); messages are elided, only the offending field
names are kept. -/
def taskCreateErrors (i : TaskCreateInput) : List String :=
  (match i.title with
   | none => ["title"]
   | some t => if 1 ≤ t.length ∧ t.length ≤ 200 then [] else ["title"]) ++
  (match i.description with
   | none => []
   | some d => if d.length ≤ 1000 then [] else ["description"]) ++
  (match i.status with
   | none => []
   | some s => if statusValues.contains s then [] else ["status"]) ++
  (match i.priority with
   | none => []
   | some p => if priorityValues.contains p then [] else ["priority"]) ++
  (match i.category_id with
   | some (some c) => if 0 < c then [] else ["category_id"]
   | _ => [])

/-- Joi's normalized value for taskSchemas.create: declared defaults
`pending`/`medium` fill absent status/priority (validation.js lines 28-29);
absent nullable fields insert as SQL NULL. -/
def normalizeTaskCreate (i : TaskCreateInput) : TaskCreate :=
  { title := i.title.getD ""
    description := i.description
    status := i.status.getD "pending"
    priority := i.priority.getD "medium"
    due_date := i.due_date.getD none
    category_id := i.category_id.getD none }

/-- The validate middleware for taskSchemas.create (validation.js lines
57-79): failure lists the offending fields, success hands the handler the
normalized value (`req.body = value`), never the raw input. -/
def validateTaskCreate (i : TaskCreateInput) : Except (List String) TaskCreate :=
  match taskCreateErrors i with
  | [] => .ok (normalizeTaskCreate i)
  | errs => .error errs

/-- Test for the category color pattern of validation.js lines 48 and 53,
a case-insensitive `#` followed by six hex digits. -/
def isHexColor (s : String) : Bool :=
  s.length == 7 && s.toList.head? == some '#' &&
    (s.toList.drop 1).all fun c => ("0123456789abcdefABCDEF".toList).contains c

/-- Raw POST /categories body after Joi strips unknown keys
(categorySchemas.create, validation.js lines 46-49). -/
structure CategoryCreateInput where
  name : Option String := none
  color : Option String := none
deriving Repr, DecidableEq

/-- Normalized POST /categories body. -/
structure CategoryCreate where
  name : String
  color : String
deriving Repr, DecidableEq

/-- Fields violating categorySchemas.create, collected in one pass. -/
def categoryCreateErrors (i : CategoryCreateInput) : List String :=
  (match i.name with
   | none => ["name"]
   | some n => if 1 ≤ n.length ∧ n.length ≤ 50 then [] else ["name"]) ++
  (match i.color with
   | none => []
   | some c => if isHexColor c then [] else ["color"])

/-- The validate middleware for categorySchemas.create: the declared
default `#3B82F6` fills an absent color (validation.js line 48). -/
def validateCategoryCreate (i : CategoryCreateInput) :
    Except (List String) CategoryCreate :=
  match categoryCreateErrors i with
  | [] => .ok { name := i.name.getD "", color := i.color.getD "#3B82F6" }
  | errs => .error errs

/-- Allowed sort keys (querySchemas.pagination, validation.js line 110). -/
def sortValues : List String := ["created_at", "updated_at", "title", "due_date", "priority"]

/-- Raw pagination query parameters (querySchemas.pagination,
validation.js lines 107-112), already number-coerced. -/
structure PaginationInput where
  page : Option Nat := none
  limit : Option Nat := none
  sort : Option String := none
  order : Option String := none
deriving Repr, DecidableEq

/-- Normalized pagination query parameters. -/
structure PaginationQuery where
  page : Nat
  limit : Nat
  sort : String
  order : String
deriving Repr, DecidableEq

/-- Fields violating querySchemas.pagination, collected in one pass. -/
def paginationErrors (i : PaginationInput) : List String :=
  (match i.page with
   | none => []
   | some p => if 1 ≤ p then [] else ["page"]) ++
  (match i.limit with
   | none => []
   | some l => if 1 ≤ l ∧ l ≤ 100 then [] else ["limit"]) ++
  (match i.sort with
   | none => []
   | some s => if sortValues.contains s then [] else ["sort"]) ++
  (match i.order with
   | none => []
   | some o => if o == "asc" || o == "desc" then [] else ["order"])

/-- The validateQuery middleware for querySchemas.pagination
(validation.js lines 82-103): declared defaults page=1, limit=10,
sort=created_at, order=desc (lines 108-111). -/
def validatePagination (i : PaginationInput) :
    Except (List String) PaginationQuery :=
  match paginationErrors i with
  | [] => .ok { page := i.page.getD 1, limit := i.limit.getD 10,
                sort := i.sort.getD "created_at", order := i.order.getD "desc" }
  | errs => .error errs

/-- JS `Math.ceil(a / b)` on natural inputs with `b ≥ 1`, as computed for
`totalPages` (tasks.js line 87). -/
def mathCeilDiv (a b : Nat) : Nat := (a + b - 1) / b

/-- The pagination object of the GET /tasks response (tasks.js lines
93-99). -/
structure Pagination where
  currentPage : Nat
  totalPages : Nat
  totalTasks : Nat
  hasNextPage : Bool
  hasPrevPage : Bool
deriving Repr, DecidableEq

/-- Construction of the pagination object (tasks.js lines 87-99):
`totalPages = Math.ceil(totalTasks / limit)`, `hasNextPage = page <
totalPages`, `hasPrevPage = page > 1`. -/
def buildPagination (totalTasks page limit : Nat) : Pagination :=
  let totalPages := mathCeilDiv totalTasks limit
  { currentPage := page
    totalPages := totalPages
    totalTasks := totalTasks
    hasNextPage := decide (page < totalPages)
    hasPrevPage := decide (1 < page) }

/-- The PostgreSQL-error branch of the central error handler
(errorHandler.js lines 21-43), keyed by `err.code`. -/
def pgErrorResponse (code : String) : ApiError :=
  if code == "23505" then ⟨409, "Resource already exists"⟩
  else if code == "23503" then ⟨400, "Referenced resource does not exist"⟩
  else if code == "23502" then ⟨400, "Required field is missing"⟩
  else if code == "42P01" then ⟨500, "Database configuration error"⟩
  else ⟨500, "Database error occurred"⟩

/-- The row INSERT of POST /tasks builds (tasks.js lines 192-197): the
statement names no `completed_at`, so that column takes its NULL default
(schema.sql line 41) whatever the inserted status is. -/
def newTaskRow (v : TaskCreate) (userId newId now : Nat) : Task :=
  { id := newId, user_id := userId, title := v.title,
    description := v.description, status := v.status, priority := v.priority,
    due_date := v.due_date, category_id := v.category_id,
    created_at := now, updated_at := now, completed_at := none }

/-- Storage behaviour of the INSERT of POST /tasks: the foreign key
`category_id REFERENCES categories(id)` (schema.sql line 37) admits any
existing category id — ownership is not part of the constraint — and
raises error code 23503 when the id references no category. -/
def insertTask (cats : List Category) (v : TaskCreate)
    (userId newId now : Nat) : Except String Task :=
  match v.category_id with
  | some cid =>
    if cats.any (fun c => c.id == cid) then .ok (newTaskRow v userId newId now)
    else .error "23503"
  | none => .ok (newTaskRow v userId newId now)

/-- POST /tasks after validation (tasks.js lines 187-209): the handler
inserts the validated values directly — no category existence or
visibility query of its own — and a storage error reaches the central
error handler via `next(error)`. -/
def createTask (cats : List Category) (tasks : List Task) (v : TaskCreate)
    (userId newId now : Nat) : Except ApiError Task × List Task :=
  match insertTask cats v userId newId now with
  | .ok t => (.ok t, tasks ++ [t])
  | .error code => (.error (pgErrorResponse code), tasks)

/-- POST /tasks including its validate middleware: invalid bodies get the
400 "Validation error" response, valid ones reach the handler as the
normalized value. -/
def postTask (cats : List Category) (tasks : List Task) (i : TaskCreateInput)
    (userId newId now : Nat) : Except ApiError Task × List Task :=
  match validateTaskCreate i with
  | .error _ => (.error ⟨400, "Validation error"⟩, tasks)
  | .ok v => createTask cats tasks v userId newId now

/-- Outcome of the authentication middleware: either a direct rejection
response or the user attached to the request (`req.user`). -/
inductive AuthResult where
  | reject (status : Nat) (message : String)
  | authed (user : User)
deriving Repr, DecidableEq

/-- Character-level split used to embed the JS `split(' ')` call: groups
between separators, with empty groups kept exactly as JS keeps them. -/
def splitChars (sep : Char) : List Char → List (List Char)
  | [] => [[]]
  | c :: cs =>
    let rest := splitChars sep cs
    if c = sep then [] :: rest
    else
      match rest with
      | [] => [[c]]
      | g :: gs => (c :: g) :: gs

/-- JS `authHeader.split(' ')`. -/
def jsSplitSpace (s : String) : List String :=
  (splitChars ' ' s.toList).map fun cs => String.mk cs

/-- Bearer-token extraction of auth.js line 11
(`authHeader && authHeader.split(' ')[1]`); a missing second word and the
falsy empty string both count as no token. -/
def extractBearerToken (authHeader : Option String) : Option String :=
  match authHeader with
  | none => none
  | some h =>
    match (jsSplitSpace h).get? 1 with
    | none => none
    | some t => if t = "" then none else some t

/-- The authenticateToken middleware (auth.js lines 8-46).  The verifier
is the external `verifyToken` collaborator: `none` stands for a thrown
signature/expiry error, which the catch block answers with status 403 and
"Invalid or expired token"; a decoded user id missing from the users table
answers 401 "User not found". -/
def authenticateToken (verify : String → Option Nat) (users : List User)
    (authHeader : Option String) : AuthResult :=
  match extractBearerToken authHeader with
  | none => .reject 401 "Access token required"
  | some token =>
    match verify token with
    | none => .reject 403 "Invalid or expired token"
    | some uid =>
      match users.find? (fun x => x.id == uid) with
      | none => .reject 401 "User not found"
      | some u => .authed u

/-- A concrete task row used to instantiate hypotheses of the theorems
below on closed inputs. -/
def sampleTask : Task :=
  { id := 1, user_id := 1, title := "Buy groceries",
    description := some "Milk, bread, eggs, vegetables",
    status := "pending", priority := "medium", due_date := some 100,
    category_id := some 3, created_at := 0, updated_at := 0,
    completed_at := none }

/-- C1: a fetch, update or delete of a task whose id does not exist for the
caller, or whose owner is another user, answers 404 "Task not found" — never
a 403 and never task data — and a successful fetch only ever returns a row
whose id is the requested id and whose owner is the caller, because all
three statements filter on both the task id and the caller's user id. -/
theorem task_ops_scoped_404 (db : List Task) (taskId userId : Nat)
    (u : TaskUpdate) (now : Nat) :
    ((∀ t ∈ db, ¬ (t.id = taskId ∧ t.user_id = userId)) →
      getTask db taskId userId = .error ⟨404, "Task not found"⟩ ∧
      updateTask db taskId userId u now = (.error ⟨404, "Task not found"⟩, db) ∧
      deleteTask db taskId userId = (.error ⟨404, "Task not found"⟩, db)) ∧
    (∀ t, getTask db taskId userId = .ok t → t.id = taskId ∧ t.user_id = userId) := by
  constructor
  · intro h
    have hfind : db.find? (taskMatches taskId userId) = none := by
      rw [List.find?_eq_none]
      intro t ht
      have := h t ht
      simp only [taskMatches, Bool.and_eq_true, beq_iff_eq]
      tauto
    have hany : db.any (taskMatches taskId userId) = false := by
      rw [Bool.eq_false_iff]
      intro hc
      obtain ⟨t, ht, hm⟩ := List.any_eq_true.mp hc
      simp only [taskMatches, Bool.and_eq_true, beq_iff_eq] at hm
      exact h t ht hm
    refine ⟨?_, ?_, ?_⟩
    · simp [getTask, hfind]
    · simp [updateTask, hfind]
    · simp [deleteTask, hany]
  · intro t hok
    unfold getTask at hok
    cases hfind : db.find? (taskMatches taskId userId) with
    | none => rw [hfind] at hok; exact absurd hok (by simp)
    | some t' =>
      rw [hfind] at hok
      have hm := List.find?_some hfind
      simp only [Except.ok.injEq] at hok
      subst hok
      simpa [taskMatches, Bool.and_eq_true, beq_iff_eq] using hm

/-- Closed instance of the C1 theorem: the store holds only user 1's task 1,
and requests for task 2 (absent) and for task 1 by user 2 (not the owner)
both draw the 404 outcome on all three operations. -/
theorem task_ops_scoped_404_witness :
    (getTask [sampleTask] 2 1 = .error ⟨404, "Task not found"⟩ ∧
      updateTask [sampleTask] 2 1 {} 5 = (.error ⟨404, "Task not found"⟩, [sampleTask]) ∧
      deleteTask [sampleTask] 2 1 = (.error ⟨404, "Task not found"⟩, [sampleTask])) ∧
    (getTask [sampleTask] 1 2 = .error ⟨404, "Task not found"⟩ ∧
      updateTask [sampleTask] 1 2 {} 5 = (.error ⟨404, "Task not found"⟩, [sampleTask]) ∧
      deleteTask [sampleTask] 1 2 = (.error ⟨404, "Task not found"⟩, [sampleTask])) :=
  ⟨(task_ops_scoped_404 [sampleTask] 2 1 {} 5).1 (by decide),
   (task_ops_scoped_404 [sampleTask] 1 2 {} 5).1 (by decide)⟩

/-- A task row already in the `completed` state, `completed_at` set by an
earlier transition. -/
def sampleCompletedTask : Task :=
  { id := 2, user_id := 1, title := "Team meeting",
    description := some "Weekly team sync meeting",
    status := "completed", priority := "medium", due_date := some 50,
    category_id := some 1, created_at := 0, updated_at := 3,
    completed_at := some 3 }

/-- A category owned by user 1. -/
def sampleOwnedCategory : Category :=
  { id := 3, name := "Shopping", color := "#F59E0B", user_id := some 1,
    created_at := 0 }

/-- A user row. -/
def sampleUser : User :=
  { id := 1, name := "John Doe", email := "user@example.com",
    password := "hash", avatar_url := none, created_at := 0, updated_at := 0 }

/-- The stored row produced by creating a task whose body already says
`status: completed`. -/
def completedCreateRow : Task :=
  { id := 7, user_id := 1, title := "Team meeting", description := none,
    status := "completed", priority := "medium", due_date := none,
    category_id := none, created_at := 4, updated_at := 4,
    completed_at := none }

/-- C2 counterexample: creating a task with body status `completed` stores
the row with `completed_at` NULL (the INSERT never names that column), so
the store holds a task whose status is `completed` and whose
`completed_at` is null — the claimed iff fails on it. -/
theorem completed_at_iff_counterexample :
    (postTask [] [] { title := some "Team meeting", status := some "completed" } 1 7 4).2 =
      [completedCreateRow] ∧
    completedCreateRow.status = "completed" ∧
    completedCreateRow.completed_at = none := by
  refine ⟨?_, rfl, rfl⟩
  decide

/-- C2 amended: the update path behaves exactly as claimed — new status
`completed` from a stored non-`completed` status sets `completed_at` to the
current time, any other new status clears it to null, an update without
status leaves it untouched — and a task update preserves the
completed_at-iff-completed invariant across the store; the iff itself is
not universal, since task creation can store status `completed` with
`completed_at` null. -/
theorem completed_at_update_invariant (db : List Task) (tid uid now : Nat)
    (u : TaskUpdate) (old : Task) :
    (u.status = some "completed" → old.status ≠ "completed" →
      (applyTaskUpdate old u now).completed_at = some now) ∧
    (∀ s, u.status = some s → s ≠ "completed" →
      (applyTaskUpdate old u now).completed_at = none) ∧
    (u.status = none →
      (applyTaskUpdate old u now).completed_at = old.completed_at ∧
      (applyTaskUpdate old u now).status = old.status) ∧
    ((∀ t ∈ db, t.completed_at ≠ none ↔ t.status = "completed") →
      ∀ t' ∈ (updateTask db tid uid u now).2,
        t'.completed_at ≠ none ↔ t'.status = "completed") := by
  have happly : ∀ (o : Task), (o.completed_at ≠ none ↔ o.status = "completed") →
      ((applyTaskUpdate o u now).completed_at ≠ none ↔
        (applyTaskUpdate o u now).status = "completed") := by
    intro o ho
    simp only [applyTaskUpdate, newCompletedAt]
    cases hs : u.status with
    | none => simpa using ho
    | some s =>
      by_cases hsc : s = "completed"
      · subst hsc
        by_cases hoc : o.status = "completed"
        · simp [hoc, ho.mpr hoc]
        · simp [hoc]
      · simp [hsc, Option.getD]
  refine ⟨?_, ?_, ?_, ?_⟩
  · intro hs hold
    simp [applyTaskUpdate, newCompletedAt, hs, hold]
  · intro s hs hsc
    simp [applyTaskUpdate, newCompletedAt, hs, hsc]
  · intro hs
    simp [applyTaskUpdate, newCompletedAt, hs]
  · intro hinv t' ht'
    unfold updateTask at ht'
    cases hfind : db.find? (taskMatches tid uid) with
    | none =>
      rw [hfind] at ht'
      exact hinv t' ht'
    | some o =>
      rw [hfind] at ht'
      have ho : o ∈ db := List.mem_of_find?_eq_some hfind
      by_cases hflds : taskUpdateFields u o.status = []
      · simp only [hflds, if_pos rfl] at ht'
        exact hinv t' ht'
      · simp only [if_neg hflds] at ht'
        simp only [List.mem_map] at ht'
        obtain ⟨t, ht, heq⟩ := ht'
        by_cases hm : taskMatches tid uid t
        · rw [if_pos hm] at heq
          subst heq
          exact happly o (hinv o ho)
        · rw [if_neg hm] at heq
          subst heq
          exact hinv t ht

/-- Closed instance of the C2 amended theorem: updating the pending sample
task to `completed` at time 9 stamps `completed_at = 9`. -/
theorem completed_at_update_invariant_witness :
    (applyTaskUpdate sampleTask { status := some "completed" } 9).completed_at = some 9 :=
  (completed_at_update_invariant [] 0 0 9 { status := some "completed" } sampleTask).1
    rfl (by decide)

/-- A status-only update body, as sent when toggling a task's status. -/
def setStatus (s : String) : TaskUpdate := { status := some s }

/-- Evaluation of PUT /tasks/:id on a store holding exactly the addressed
task, when the dynamic field list is non-empty. -/
theorem updateTask_singleton (t : Task) (u : TaskUpdate) (now : Nat)
    (h : ¬ taskUpdateFields u t.status = []) :
    updateTask [t] t.id t.user_id u now =
      (.ok (applyTaskUpdate t u now), [applyTaskUpdate t u now]) := by
  have hmatch : taskMatches t.id t.user_id t = true := by simp [taskMatches]
  unfold updateTask
  rw [show ([t].find? (taskMatches t.id t.user_id)) = some t by
    simp [List.find?, hmatch]]
  dsimp only
  rw [if_neg h]
  simp [hmatch]

/-- The status-only update body always yields a non-empty dynamic field
list (the `status` push itself). -/
theorem taskUpdateFields_setStatus_ne_nil (s st : String) :
    ¬ taskUpdateFields (setStatus s) st = [] := by
  simp [taskUpdateFields, presentTaskFields, setStatus]

/-- C7: re-sending status `completed` to an already-completed task keeps
the first transition's `completed_at`; moving the status away and then
back re-stamps `completed_at` with the (later) time of the re-entry, a
value distinct from the original timestamp. -/
theorem completed_at_idempotent_reentry (old : Task) (s : String) (t0 t1 t2 : Nat)
    (hcomp : old.status = "completed") (hca : old.completed_at = some t0)
    (hs : s ≠ "completed") (ht : t0 < t2) :
    (updateTask [old] old.id old.user_id (setStatus "completed") t2).2.map
      Task.completed_at = [old.completed_at] ∧
    (updateTask (updateTask [old] old.id old.user_id (setStatus s) t1).2
      old.id old.user_id (setStatus "completed") t2).2.map
      Task.completed_at = [some t2] ∧
    old.completed_at ≠ some t2 := by
  refine ⟨?_, ?_, ?_⟩
  · rw [updateTask_singleton old (setStatus "completed") t2
      (taskUpdateFields_setStatus_ne_nil _ _)]
    simp [applyTaskUpdate, newCompletedAt, setStatus, hcomp]
  · rw [updateTask_singleton old (setStatus s) t1
      (taskUpdateFields_setStatus_ne_nil _ _)]
    have hmidstatus : (applyTaskUpdate old (setStatus s) t1).status = s := by
      simp [applyTaskUpdate, setStatus]
    have hmidid : (applyTaskUpdate old (setStatus s) t1).id = old.id := rfl
    have hmiduid : (applyTaskUpdate old (setStatus s) t1).user_id = old.user_id := rfl
    rw [← hmidid, ← hmiduid,
      updateTask_singleton (applyTaskUpdate old (setStatus s) t1) (setStatus "completed") t2
        (taskUpdateFields_setStatus_ne_nil _ _)]
    simp only [List.map_cons, List.map_nil, List.cons.injEq, and_true]
    simp [applyTaskUpdate, newCompletedAt, setStatus, hmidstatus, hs]
  · rw [hca]
    intro hc
    injection hc with hc
    omega

/-- Closed instance of the C7 theorem: the sample completed task
(completed at 3) keeps `completed_at = 3` under a repeated `completed`
update at time 9, and re-enters with `completed_at = 9` after a pending
detour at time 5. -/
theorem completed_at_idempotent_reentry_witness :
    (updateTask [sampleCompletedTask] sampleCompletedTask.id sampleCompletedTask.user_id
      (setStatus "completed") 9).2.map Task.completed_at = [sampleCompletedTask.completed_at] ∧
    (updateTask (updateTask [sampleCompletedTask] sampleCompletedTask.id
      sampleCompletedTask.user_id (setStatus "pending") 5).2
      sampleCompletedTask.id sampleCompletedTask.user_id (setStatus "completed") 9).2.map
      Task.completed_at = [some 9] ∧
    sampleCompletedTask.completed_at ≠ some 9 :=
  completed_at_idempotent_reentry sampleCompletedTask "pending" 3 5 9
    (by decide) (by decide) (by decide) (by decide)

/-- A body with no recognized task field also has no `status`. -/
theorem taskUpdate_empty_status (u : TaskUpdate) (h : presentTaskFields u = []) :
    u.status = none := by
  cases hst : u.status with
  | none => rfl
  | some s => simp [presentTaskFields, hst] at h

/-- A body with no recognized task field leaves the whole dynamic field
list of PUT /tasks/:id empty: without a status, the `completed_at` push
cannot fire either. -/
theorem taskUpdateFields_of_empty (u : TaskUpdate) (st : String)
    (h : presentTaskFields u = []) : taskUpdateFields u st = [] := by
  have hst := taskUpdate_empty_status u h
  simp [taskUpdateFields, h, completedAtField, hst]

/-- A body with no recognized category field also has no `name`. -/
theorem categoryUpdate_empty_name (u : CategoryUpdate)
    (h : presentCategoryFields u = []) : u.name = none := by
  cases hn : u.name with
  | none => rfl
  | some s => simp [presentCategoryFields, hn] at h

/-- A body with no recognized profile field also has no `email`. -/
theorem profileUpdate_empty_email (u : ProfileUpdate)
    (h : presentProfileFields u = []) : u.email = none := by
  cases he : u.email with
  | none => rfl
  | some s => simp [presentProfileFields, he] at h

/-- C3 counterexample: an update call with zero recognized fields does not
always answer 400 — a task update with an empty body addressed at a task
id that does not exist answers the ownership pre-check's 404 "Task not
found" instead (the pre-check runs before the empty-fields check). -/
theorem no_valid_fields_counterexample :
    presentTaskFields {} = [] ∧
    (updateTask [] 1 1 {} 0).1 = .error ⟨404, "Task not found"⟩ ∧
    (updateTask [] 1 1 {} 0).1 ≠ .error ⟨400, "No valid fields to update"⟩ := by
  refine ⟨by decide, rfl, ?_⟩
  intro h
  exact absurd (Except.error.inj h) (by decide)

/-- C3 amended: an update call with zero recognized fields whose target
passes the preceding checks — for a task, a row matching both the id and
the caller; for a category, an existing row owned by the caller; for the
profile, always — answers 400 "No valid fields to update" and leaves the
store untouched; a failed target check answers its own 404/403 and also
issues no update. -/
theorem no_valid_fields_400 (db : List Task) (cats : List Category)
    (users : List User) (tid cid uid : Nat) (tu : TaskUpdate)
    (cu : CategoryUpdate) (pu : ProfileUpdate) (now : Nat) (c : Category) :
    (presentTaskFields tu = [] → (∃ t ∈ db, taskMatches tid uid t) →
      updateTask db tid uid tu now =
        (.error ⟨400, "No valid fields to update"⟩, db)) ∧
    (presentCategoryFields cu = [] →
      cats.find? (fun x => x.id == cid) = some c → c.user_id = some uid →
      updateCategory cats cid uid cu =
        (.error ⟨400, "No valid fields to update"⟩, cats)) ∧
    (presentProfileFields pu = [] →
      updateProfile users uid pu now =
        (.error ⟨400, "No valid fields to update"⟩, users)) := by
  refine ⟨?_, ?_, ?_⟩
  · intro hemp ⟨t, ht, hm⟩
    obtain ⟨old, hfind⟩ : ∃ old, db.find? (taskMatches tid uid) = some old := by
      have : (db.find? (taskMatches tid uid)).isSome := by
        rw [List.find?_isSome]
        exact ⟨t, ht, hm⟩
      exact Option.isSome_iff_exists.mp this
    unfold updateTask
    rw [hfind]
    dsimp only
    rw [if_pos (taskUpdateFields_of_empty tu old.status hemp)]
  · intro hemp hfind howner
    have hname := categoryUpdate_empty_name cu hemp
    unfold updateCategory
    rw [hfind]
    dsimp only
    rw [howner]
    simp [hname, hemp]
  · intro hemp
    have hmail := profileUpdate_empty_email pu hemp
    unfold updateProfile
    simp [hmail, hemp]

/-- Closed instance of the C3 amended theorem: empty update bodies against
user 1's existing task 1, owned category 3 and own profile all answer 400
"No valid fields to update" with the stores untouched. -/
theorem no_valid_fields_400_witness :
    updateTask [sampleTask] 1 1 {} 5 =
      (.error ⟨400, "No valid fields to update"⟩, [sampleTask]) ∧
    updateCategory [sampleOwnedCategory] 3 1 {} =
      (.error ⟨400, "No valid fields to update"⟩, [sampleOwnedCategory]) ∧
    updateProfile [sampleUser] 1 {} 5 =
      (.error ⟨400, "No valid fields to update"⟩, [sampleUser]) := by
  have h := no_valid_fields_400 [sampleTask] [sampleOwnedCategory] [sampleUser]
    1 3 1 {} {} {} 5 sampleOwnedCategory
  exact ⟨h.1 (by decide) ⟨sampleTask, by decide, by decide⟩,
    h.2.1 (by decide) (by decide) (by decide),
    h.2.2 (by decide)⟩

/-- C4 counterexample: a request whose bearer token fails verification is
rejected with HTTP status 403, not the claimed 401, though with the
claimed generic message. -/
theorem invalid_token_counterexample :
    authenticateToken (fun _ => none) [] (some "Bearer abc") =
      .reject 403 "Invalid or expired token" ∧
    authenticateToken (fun _ => none) [] (some "Bearer abc") ≠
      .reject 401 "Invalid or expired token" := by
  constructor
  · decide
  · decide

/-- C4 amended: a present bearer token that fails signature or expiry
verification is rejected with HTTP status 403 and the generic message
"Invalid or expired token" — no detail on which check failed — and no
identity is attached to the request. -/
theorem invalid_token_403 (verify : String → Option Nat) (users : List User)
    (hdr : Option String) (tok : String)
    (hex : extractBearerToken hdr = some tok) (hv : verify tok = none) :
    authenticateToken verify users hdr = .reject 403 "Invalid or expired token" ∧
    ∀ u : User, authenticateToken verify users hdr ≠ .authed u := by
  have hres : authenticateToken verify users hdr =
      .reject 403 "Invalid or expired token" := by
    unfold authenticateToken
    rw [hex]
    dsimp only
    rw [hv]
  exact ⟨hres, fun u h => by rw [hres] at h; exact AuthResult.noConfusion h⟩

/-- Closed instance of the C4 amended theorem: a verifier that rejects
every token turns a well-formed bearer header into the 403 response. -/
theorem invalid_token_403_witness :
    authenticateToken (fun _ => none) [sampleUser] (some "Bearer abc") =
      .reject 403 "Invalid or expired token" :=
  (invalid_token_403 (fun _ => none) [sampleUser] (some "Bearer abc") "abc"
    (by decide) rfl).1

/-- The integer formula `(n + l - 1) / l` embedding `Math.ceil(n / l)`
really is the ceiling of the exact division, for any positive limit. -/
theorem mathCeilDiv_eq_ceil (n l : Nat) (hl : 1 ≤ l) :
    mathCeilDiv n l = Nat.ceil ((n : ℚ) / (l : ℚ)) := by
  have hlq : (0 : ℚ) < (l : ℚ) := by exact_mod_cast hl
  rcases Nat.eq_zero_or_pos n with hn | hn
  · subst hn
    have h0 : (l - 1) / l = 0 := Nat.div_eq_of_lt (by omega)
    simp [mathCeilDiv, h0]
  · have hq := Nat.div_add_mod (n + l - 1) l
    have hrl : (n + l - 1) % l < l := Nat.mod_lt _ hl
    set d := (n + l - 1) / l with hd
    have hbounds : n ≤ l * d ∧ l * d < n + l := by
      generalize l * d = m at hq
      omega
    have hd1 : 1 ≤ d := by
      rcases Nat.eq_zero_or_pos d with h0 | h0
      · rw [h0, Nat.mul_zero] at hbounds; omega
      · exact h0
    have h1q : (n : ℚ) ≤ (l : ℚ) * d := by exact_mod_cast hbounds.1
    have h2q : (l : ℚ) * d < (n : ℚ) + l := by exact_mod_cast hbounds.2
    have hcast : ((d - 1 : ℕ) : ℚ) = (d : ℚ) - 1 := by
      push_cast [Nat.cast_sub hd1]
      ring
    show d = Nat.ceil ((n : ℚ) / (l : ℚ))
    symm
    rw [Nat.ceil_eq_iff (by omega)]
    constructor
    · rw [hcast, lt_div_iff₀ hlq]
      linarith
    · rw [div_le_iff₀ hlq]
      linarith

/-- C5: the paginated list response computes
`totalPages = ceil(totalTasks / limit)` (exact rational ceiling),
`hasNextPage = page < totalPages` and `hasPrevPage = page > 1`; on 23
tasks with limit 10 and page 3 this gives totalPages 3, no next page and a
previous page. -/
theorem pagination_fields (totalTasks page limit : Nat) (hl : 1 ≤ limit) :
    (buildPagination totalTasks page limit).totalPages =
      Nat.ceil ((totalTasks : ℚ) / (limit : ℚ)) ∧
    ((buildPagination totalTasks page limit).hasNextPage = true ↔
      page < (buildPagination totalTasks page limit).totalPages) ∧
    ((buildPagination totalTasks page limit).hasPrevPage = true ↔ 1 < page) ∧
    buildPagination 23 3 10 =
      { currentPage := 3, totalPages := 3, totalTasks := 23,
        hasNextPage := false, hasPrevPage := true } := by
  refine ⟨mathCeilDiv_eq_ceil totalTasks limit hl, ?_, ?_, by decide⟩ <;>
    simp [buildPagination]

/-- Closed instance of the C5 theorem at the spec's worked example:
23 tasks, limit 10, page 3. -/
theorem pagination_fields_witness :
    (buildPagination 23 3 10).totalPages = Nat.ceil ((23 : ℚ) / (10 : ℚ)) ∧
    ((buildPagination 23 3 10).hasNextPage = true ↔
      3 < (buildPagination 23 3 10).totalPages) ∧
    ((buildPagination 23 3 10).hasPrevPage = true ↔ 1 < 3) ∧
    buildPagination 23 3 10 =
      { currentPage := 3, totalPages := 3, totalTasks := 23,
        hasNextPage := false, hasPrevPage := true } :=
  pagination_fields 23 3 10 (by decide)

/-- C6 counterexample: a successful category update issues an UPDATE
statement whose set clause holds only the dynamic fields — `updated_at` is
not among the assigned columns (the task and profile updates append it;
the category update does not, and the categories table has no such
column). -/
theorem category_updated_at_counterexample :
    "updated_at" ∉ categorySetColumns { name := some "Errands" } ∧
    (updateCategory [sampleOwnedCategory] 3 1 { name := some "Errands" }).1 =
      .ok { id := 3, name := "Errands", color := "#F59E0B", user_id := some 1,
            created_at := 0 } := by
  exact ⟨by decide, rfl⟩

/-- C6 amended: every task update and every profile update also assigns
`updated_at = CURRENT_TIMESTAMP` in the same statement (so the updated row
carries the current time), but no category update ever assigns
`updated_at`. -/
theorem updated_at_touched (tu : TaskUpdate) (st : String) (old : Task)
    (cu : CategoryUpdate) (pu : ProfileUpdate) (uold : User) (now : Nat) :
    "updated_at" ∈ taskSetColumns tu st ∧
    (applyTaskUpdate old tu now).updated_at = now ∧
    "updated_at" ∈ profileSetColumns pu ∧
    (applyProfileUpdate uold pu now).updated_at = now ∧
    "updated_at" ∉ categorySetColumns cu := by
  refine ⟨?_, rfl, ?_, rfl, ?_⟩
  · simp [taskSetColumns]
  · simp [profileSetColumns]
  · rcases cu with ⟨n, c⟩
    cases n <;> cases c <;> simp [categorySetColumns, presentCategoryFields]

/-- C8: validation fills the documented defaults into omitted optional
fields — task status `pending` and priority `medium`, category color
`#3B82F6`, pagination page 1, limit 10, sort `created_at`, order `desc` —
and the route hands the handler the normalized value, never the raw
input. -/
theorem validation_defaults (title cname : String) (i : TaskCreateInput)
    (v : TaskCreate) (cats : List Category) (tasks : List Task)
    (userId newId now : Nat)
    (ht : 1 ≤ title.length) (ht2 : title.length ≤ 200)
    (hn : 1 ≤ cname.length) (hn2 : cname.length ≤ 50) :
    validateTaskCreate { title := some title } =
      .ok { title := title, description := none, status := "pending",
            priority := "medium", due_date := none, category_id := none } ∧
    validateCategoryCreate { name := some cname } =
      .ok { name := cname, color := "#3B82F6" } ∧
    validatePagination {} =
      .ok { page := 1, limit := 10, sort := "created_at", order := "desc" } ∧
    (validateTaskCreate i = .ok v →
      postTask cats tasks i userId newId now =
        createTask cats tasks v userId newId now) := by
  refine ⟨?_, ?_, rfl, ?_⟩
  · simp [validateTaskCreate, taskCreateErrors, normalizeTaskCreate, ht, ht2]
  · simp [validateCategoryCreate, categoryCreateErrors, hn, hn2]
  · intro h
    unfold postTask
    rw [h]

/-- Closed instance of the C8 theorem on the bodies
`{title: "Buy groceries"}`, `{name: "Work"}` and an empty query string. -/
theorem validation_defaults_witness :
    validateTaskCreate { title := some "Buy groceries" } =
      .ok { title := "Buy groceries", description := none, status := "pending",
            priority := "medium", due_date := none, category_id := none } ∧
    validateCategoryCreate { name := some "Work" } =
      .ok { name := "Work", color := "#3B82F6" } ∧
    validatePagination {} =
      .ok { page := 1, limit := 10, sort := "created_at", order := "desc" } ∧
    (validateTaskCreate {} =
        .ok { title := "", description := none, status := "pending",
              priority := "medium", due_date := none, category_id := none } →
      postTask [] [] {} 1 1 0 =
        createTask [] []
          { title := "", description := none, status := "pending",
            priority := "medium", due_date := none, category_id := none }
          1 1 0) :=
  validation_defaults "Buy groceries" "Work" {} _ [] [] 1 1 0
    (by decide) (by decide) (by decide) (by decide)

/-- C9: the task-create schema accepts any positive `category_id` with no
access to the store at all; inserting a task whose `category_id` matches
no category raises the storage foreign-key violation, which the central
error handler maps to 400 "Referenced resource does not exist"; and when
a category with that id exists — even one owned by a different user — the
insert succeeds and the stored task references it. -/
theorem task_create_fk (cats : List Category) (tasks : List Task)
    (v : TaskCreate) (cid userId newId now : Nat) (title : String)
    (ht : 1 ≤ title.length) (ht2 : title.length ≤ 200) :
    (0 < cid →
      validateTaskCreate { title := some title, category_id := some (some cid) } =
        .ok { title := title, description := none, status := "pending",
              priority := "medium", due_date := none, category_id := some cid }) ∧
    (v.category_id = some cid → (∀ c ∈ cats, c.id ≠ cid) →
      createTask cats tasks v userId newId now =
        (.error ⟨400, "Referenced resource does not exist"⟩, tasks)) ∧
    (v.category_id = some cid →
      (∃ c ∈ cats, c.id = cid ∧ c.user_id ≠ some userId) →
      createTask cats tasks v userId newId now =
        (.ok (newTaskRow v userId newId now),
         tasks ++ [newTaskRow v userId newId now]) ∧
      (newTaskRow v userId newId now).category_id = some cid) := by
  refine ⟨?_, ?_, ?_⟩
  · intro hc
    simp [validateTaskCreate, taskCreateErrors, normalizeTaskCreate, ht, ht2, hc]
  · intro hv hnone
    have hany : cats.any (fun c => c.id == cid) = false := by
      rw [Bool.eq_false_iff]
      intro hc
      obtain ⟨c, hc1, hc2⟩ := List.any_eq_true.mp hc
      exact hnone c hc1 (by simpa using hc2)
    unfold createTask insertTask
    rw [hv]
    dsimp only
    rw [hany]
    rfl
  · intro hv ⟨c, hc, hcid, _⟩
    have hany : cats.any (fun c => c.id == cid) = true :=
      List.any_eq_true.mpr ⟨c, hc, by simpa using hcid⟩
    refine ⟨?_, by simp [newTaskRow, hv]⟩
    unfold createTask insertTask
    rw [hv]
    dsimp only
    rw [hany]
    rfl

/-- A normalized create body referencing category 3, as sent by user 2. -/
def sampleCreate : TaskCreate :=
  { title := "Learn React", description := none, status := "pending",
    priority := "medium", due_date := none, category_id := some 3 }

/-- Closed instance of the C9 theorem: user 2 creates a task against
category 3 — owned by user 1 — and the insert still succeeds, storing the
cross-owner reference; against an empty category table the same create
draws the mapped 400 foreign-key outcome. -/
theorem task_create_fk_witness :
    validateTaskCreate
        { title := some "Learn React", category_id := some (some 3) } =
      .ok { title := "Learn React", description := none, status := "pending",
            priority := "medium", due_date := none, category_id := some 3 } ∧
    createTask [sampleOwnedCategory] [] sampleCreate 2 9 4 =
      (.ok (newTaskRow sampleCreate 2 9 4), [] ++ [newTaskRow sampleCreate 2 9 4]) ∧
    createTask [] [] sampleCreate 2 9 4 =
      (.error ⟨400, "Referenced resource does not exist"⟩, []) :=
  ⟨(task_create_fk [] [] sampleCreate 3 2 9 4 "Learn React"
      (by decide) (by decide)).1 (by decide),
   ((task_create_fk [sampleOwnedCategory] [] sampleCreate 3 2 9 4 "Learn React"
      (by decide) (by decide)).2.2 rfl
      ⟨sampleOwnedCategory, by decide, by decide, by decide⟩).1,
   (task_create_fk [] [] sampleCreate 3 2 9 4 "Learn React"
      (by decide) (by decide)).2.1 rfl (by decide)⟩

/-- C10: the dependent-task count guarding category deletion is filtered
on both the category id and the caller's user id, so a task owned by
another user never changes the count or the deletion outcome; in
particular, when no task of the caller references the category, deletion
of the caller's category succeeds even while other users' tasks still
reference it. -/
theorem category_delete_scope (cats : List Category) (tasks : List Task)
    (cid uid : Nat) (t : Task) (c : Category) :
    (t.user_id ≠ uid →
      categoryTaskCount (t :: tasks) cid uid = categoryTaskCount tasks cid uid ∧
      deleteCategory cats (t :: tasks) cid uid = deleteCategory cats tasks cid uid) ∧
    (cats.find? (fun x => x.id == cid) = some c → c.user_id = some uid →
      (∀ x ∈ tasks, x.user_id = uid → x.category_id ≠ some cid) →
      (deleteCategory cats tasks cid uid).1 = .ok ()) := by
  constructor
  · intro hne
    have hcond : (t.category_id == some cid && t.user_id == uid) = false := by
      simp [hne]
    have hcount : categoryTaskCount (t :: tasks) cid uid =
        categoryTaskCount tasks cid uid := by
      simp [categoryTaskCount, List.filter_cons, hcond]
    refine ⟨hcount, ?_⟩
    unfold deleteCategory
    rw [hcount]
  · intro hfind howner hnone
    have hnil : tasks.filter
        (fun x => x.category_id == some cid && x.user_id == uid) = [] := by
      rw [List.filter_eq_nil_iff]
      intro x hx
      simp only [Bool.and_eq_true, beq_iff_eq, not_and]
      intro hc hu
      exact absurd hc (hnone x hx hu)
    have hcount : categoryTaskCount tasks cid uid = 0 := by
      simp [categoryTaskCount, hnil]
    unfold deleteCategory
    rw [hfind]
    dsimp only
    rw [howner]
    simp [hcount]

/-- A task of user 2 referencing category 3. -/
def otherUserTask : Task :=
  { id := 9, user_id := 2, title := "Learn React", description := none,
    status := "in_progress", priority := "medium", due_date := none,
    category_id := some 3, created_at := 0, updated_at := 0,
    completed_at := none }

/-- Closed instance of the C10 theorem: user 2's task referencing
category 3 neither enters user 1's blocking count nor stops user 1 from
deleting the category. -/
theorem category_delete_scope_witness :
    (categoryTaskCount [otherUserTask] 3 1 = categoryTaskCount [] 3 1 ∧
      deleteCategory [sampleOwnedCategory] [otherUserTask] 3 1 =
        deleteCategory [sampleOwnedCategory] [] 3 1) ∧
    (deleteCategory [sampleOwnedCategory] [otherUserTask] 3 1).1 = .ok () := by
  have h1 := (category_delete_scope [sampleOwnedCategory] [] 3 1 otherUserTask
    sampleOwnedCategory).1 (by decide)
  have h2 := (category_delete_scope [sampleOwnedCategory] [otherUserTask] 3 1
    otherUserTask sampleOwnedCategory).2 (by decide) (by decide)
    (by decide)
  exact ⟨h1, h2⟩

end TaskManager
